import Mathlib

/-!
Shallow embedding of `scripts/verify-services.py` from the gcombinatr
repository.

The script runs seven connectivity probes (Python version, Redis, Neo4j,
MongoDB, InfluxDB, Kafka, Ollama), each returning a pair `(ok, detail)`.
The outcome of each probe depends on the external world (whether the client
library imports, whether the service answers, what error text an exception
carries).  We model that external world explicitly: each probe becomes a
function from a small environment type describing the world's response to a
`CheckResult`.  The `main` harness is embedded over `Except String
CheckResult`: `Except.error msg` models the check function itself raising an
exception with text `msg`, which `main` catches and converts to
`(False, "Error: " ++ msg)`.

Resource handling (client construction and release) is modelled by
trace-instrumented variants `check_*_run` returning a `ProbeTrace` that
records whether a network client object was constructed and whether it was
explicitly closed before the probe returned; the plain `check_*` functions
are their `.result` projections, so there is a single source of truth.
-/

/-- Result of one probe: the `(ok, detail)` tuple each `check_*` function
returns in the script. -/
structure CheckResult where
  ok : Bool
  detail : String
  deriving DecidableEq, Repr

/-- Trace of one probe run: its result plus whether a network client object
was constructed and whether it was explicitly closed/released before the
probe returned. -/
structure ProbeTrace where
  result : CheckResult
  clientOpened : Bool
  clientClosed : Bool
  deriving DecidableEq, Repr

/-- Python's `str.lower()` restricted to the per-character lowering the
script relies on (`"authentication" in str(e).lower()`). -/
def pyLower (s : String) : String := ⟨s.data.map Char.toLower⟩

/-- Whether `p` occurs as a prefix of `s` (character lists). -/
def isSubAt : List Char → List Char → Bool
  | [], _ => true
  | _ :: _, [] => false
  | c :: cs, d :: ds => c == d && isSubAt cs ds

/-- Helper for `strContains`: whether `pat` occurs anywhere in `s`. -/
def strContainsAux (pat : List Char) : List Char → Bool
  | [] => isSubAt pat []
  | d :: ds => isSubAt pat (d :: ds) || strContainsAux pat ds

/-- Python's substring test `pat in s`. -/
def strContains (s pat : String) : Bool := strContainsAux pat.data s.data

/-- Whether `s` ends with `pat` (Python's `str.endswith`). -/
def strEndsWith (s pat : String) : Bool := isSubAt pat.data.reverse s.data.reverse

/-- The `f"{version.major}.{version.minor}.{version.micro}"` string. -/
def pyVersionStr (ma mi mc : Nat) : String :=
  toString ma ++ "." ++ toString mi ++ "." ++ toString mc

/-- Embeds `check_python_version`: reads `sys.version_info` (here the three
arguments); `ok` iff `major == 3 and minor >= 11`. -/
def check_python_version (ma mi mc : Nat) : CheckResult :=
  if ma = 3 ∧ 11 ≤ mi then ⟨true, pyVersionStr ma mi mc⟩
  else ⟨false, pyVersionStr ma mi mc ++ " (3.11+ required)"⟩

/-- External-world outcomes for `check_redis`: the `redis` import fails, the
`ping()`/`info()` call raises with text `msg`, or the probe succeeds and
`info` carries an optional `redis_version` entry. -/
inductive RedisEnv where
  | importError
  | connError (msg : String)
  | ok (version : Option String)
  deriving DecidableEq, Repr

/-- Embeds `check_redis` as a trace: the `redis.Redis(...)` client is
constructed unless the import failed, and is never explicitly closed on any
path. -/
def check_redis_run : RedisEnv → ProbeTrace
  | .importError => ⟨⟨false, "redis package not installed"⟩, false, false⟩
  | .connError msg => ⟨⟨false, msg⟩, true, false⟩
  | .ok v => ⟨⟨true, "v" ++ v.getD "unknown"⟩, true, false⟩

/-- The `(ok, detail)` pair `check_redis` returns. -/
def check_redis (e : RedisEnv) : CheckResult := (check_redis_run e).result

/-- External-world outcomes for `check_neo4j`: the `neo4j` import fails,
`verify_connectivity()` raises with text `msg`, or connectivity verifies. -/
inductive Neo4jEnv where
  | importError
  | connError (msg : String)
  | ok
  deriving DecidableEq, Repr

/-- Embeds `check_neo4j` as a trace: the driver is constructed unless its
lib was missing; `driver.close()` runs only on the success path (when
`verify_connectivity()` raises, control jumps to the handler and the close
is skipped). An error whose lowered text contains `"authentication"` is
rendered as the credential hint. -/
def check_neo4j_run : Neo4jEnv → ProbeTrace
  | .importError => ⟨⟨false, "neo4j package not installed"⟩, false, false⟩
  | .connError msg =>
    if strContains (pyLower msg) "authentication" then
      ⟨⟨false, "Authentication failed (check credentials)"⟩, true, false⟩
    else ⟨⟨false, msg⟩, true, false⟩
  | .ok => ⟨⟨true, "Connected (neo4j://localhost:7687)"⟩, true, true⟩

/-- The `(ok, detail)` pair `check_neo4j` returns. -/
def check_neo4j (e : Neo4jEnv) : CheckResult := (check_neo4j_run e).result

/-- External-world outcomes for `check_mongodb`: the `pymongo` import fails,
the `ping`/`server_info` call raises with text `msg`, or the probe succeeds
with an optional `version` entry. -/
inductive MongoEnv where
  | importError
  | connError (msg : String)
  | ok (version : Option String)
  deriving DecidableEq, Repr

/-- Embeds `check_mongodb` as a trace: the `MongoClient` is constructed
unless the import failed; `client.close()` runs only on the success path. -/
def check_mongodb_run : MongoEnv → ProbeTrace
  | .importError => ⟨⟨false, "pymongo package not installed"⟩, false, false⟩
  | .connError msg => ⟨⟨false, msg⟩, true, false⟩
  | .ok v => ⟨⟨true, "v" ++ v.getD "unknown"⟩, true, true⟩

/-- The `(ok, detail)` pair `check_mongodb` returns. -/
def check_mongodb (e : MongoEnv) : CheckResult := (check_mongodb_run e).result

/-- External-world outcomes for `check_influxdb`: the `influxdb_client`
package fails to load, `client.ping()` returns a boolean, or the attempt
raises with text `msg`. -/
inductive InfluxEnv where
  | importError
  | pingResult (b : Bool)
  | raised (msg : String)
  deriving DecidableEq, Repr

/-- Embeds `check_influxdb` as a trace: the `InfluxDBClient` is constructed
unless the import failed, and is never explicitly closed on any path.  An
error whose text contains `"401"` is rendered as the token hint. -/
def check_influxdb_run : InfluxEnv → ProbeTrace
  | .importError => ⟨⟨false, "influxdb-client package not installed"⟩, false, false⟩
  | .pingResult true => ⟨⟨true, "Connected (http://localhost:8086)"⟩, true, false⟩
  | .pingResult false => ⟨⟨false, "Ping failed"⟩, true, false⟩
  | .raised msg =>
    if strContains msg "401" then
      ⟨⟨false, "Authentication failed (check token)"⟩, true, false⟩
    else ⟨⟨false, msg⟩, true, false⟩

/-- The `(ok, detail)` pair `check_influxdb` returns. -/
def check_influxdb (e : InfluxEnv) : CheckResult := (check_influxdb_run e).result

/-- External-world outcomes for `check_kafka`: the `aiokafka` import fails,
the producer starts within the 2-second deadline, `asyncio.wait_for` times
out, or the start raises with text `msg`. -/
inductive KafkaEnv where
  | importError
  | connected
  | timeout
  | startError (msg : String)
  deriving DecidableEq, Repr

/-- Embeds `check_kafka` as a trace: the `AIOKafkaProducer` is constructed
unless the import failed; `producer.stop()` runs only when `start()`
succeeded within the deadline. -/
def check_kafka_run : KafkaEnv → ProbeTrace
  | .importError => ⟨⟨false, "aiokafka package not installed"⟩, false, false⟩
  | .connected => ⟨⟨true, "Connected (localhost:9092)"⟩, true, true⟩
  | .timeout => ⟨⟨false, "Connection timeout"⟩, true, false⟩
  | .startError msg => ⟨⟨false, msg⟩, true, false⟩

/-- The `(ok, detail)` pair `check_kafka` returns. -/
def check_kafka (e : KafkaEnv) : CheckResult := (check_kafka_run e).result

/-- External-world outcomes for `check_ollama`: the `httpx` import fails,
the GET raises with text `msg`, or it returns a status code together with
the `models` names. -/
inductive OllamaEnv where
  | importError
  | raised (msg : String)
  | status (code : Nat) (models : List String)
  deriving DecidableEq, Repr

/-- Embeds `check_ollama`: HTTP 200 reports the first three model names (or
a no-models notice); any other status is `HTTP <code>`. -/
def check_ollama : OllamaEnv → CheckResult
  | .importError => ⟨false, "httpx package not installed"⟩
  | .raised msg => ⟨false, msg⟩
  | .status 200 models =>
    match models with
    | [] => ⟨true, "Connected (no models pulled)"⟩
    | _ :: _ => ⟨true, "Models: " ++ String.intercalate ", " (models.take 3)⟩
  | .status code _ => ⟨false, "HTTP " ++ toString code⟩

/-- Timeout (in milliseconds) explicitly passed to each probe's client, read
off the constructor calls in the script; `none` when no timeout argument
appears. -/
inductive Service where
  | python | redis | neo4j | mongodb | influxdb | kafka | ollama
  deriving DecidableEq, Repr

/-- Explicit timeout each probe passes to its client: `redis.Redis(host,
port, decode_responses=True)` and `GraphDatabase.driver(uri, auth=...)` pass
none; MongoDB passes `serverSelectionTimeoutMS=2000`, InfluxDB
`timeout=2000`, Kafka `asyncio.wait_for(..., timeout=2.0)`, Ollama
`httpx.get(..., timeout=2.0)`. -/
def probeTimeoutMs : Service → Option Nat
  | .python => none
  | .redis => none
  | .neo4j => none
  | .mongodb => some 2000
  | .influxdb => some 2000
  | .kafka => some 2000
  | .ollama => some 2000

/-- The harness in `main`: `try: is_ok, details = check_func() except
Exception as e: is_ok, details = False, f"Error: \x7bstr(e)\x7d"`. -/
def harness : Except String CheckResult → CheckResult
  | .ok r => r
  | .error msg => ⟨false, "Error: " ++ msg⟩

/-- One table row per service, mapping the harnessed outcome of each check:
`(service_name, (is_ok, details), is_required)`. -/
def runRows (checks : List (String × Except String CheckResult × Bool)) :
    List (String × CheckResult × Bool) :=
  checks.map (fun c => (c.1, harness c.2.1, c.2.2))

/-- The `all_required_ok` flag: starts `True`, and in loop order is set to
`False` whenever `is_required and not is_ok`. -/
def allRequiredOk (checks : List (String × Except String CheckResult × Bool)) : Bool :=
  (runRows checks).foldl (fun acc r => if r.2.2 && !r.2.1.ok then false else acc) true

/-- The value `main` returns: `0 if all_required_ok else 1`. -/
def exitCode (checks : List (String × Except String CheckResult × Bool)) : Nat :=
  if allRequiredOk checks then 0 else 1

/-- The external world of one run: what each check function delivers to the
harness (`Except.error msg` models the check itself raising), plus whether a
`.env` file exists in the working directory. -/
structure Env where
  python : Except String (Nat × Nat × Nat)
  redis : Except String RedisEnv
  neo4j : Except String Neo4jEnv
  mongodb : Except String MongoEnv
  influxdb : Except String InfluxEnv
  kafka : Except String KafkaEnv
  ollama : Except String OllamaEnv
  envFileExists : Bool

/-- The fixed ordered `services` list from `main`: name, check outcome,
required flag; Kafka and Ollama are the optional entries. -/
def serviceChecks (e : Env) : List (String × Except String CheckResult × Bool) :=
  [ ("Python Version", e.python.map (fun v => check_python_version v.1 v.2.1 v.2.2), true),
    ("Redis", e.redis.map check_redis, true),
    ("Neo4j", e.neo4j.map check_neo4j, true),
    ("MongoDB", e.mongodb.map check_mongodb, true),
    ("InfluxDB", e.influxdb.map check_influxdb, true),
    ("Kafka", e.kafka.map check_kafka, false),
    ("Ollama", e.ollama.map check_ollama, false) ]

/-- Exit code of one full run of `main` in world `e`. -/
def mainRun (e : Env) : Nat := exitCode (serviceChecks e)

/-- The found / not-found notice `main` prints about the `.env` file
(markup stripped). -/
def envNotice (b : Bool) : String :=
  if b then ".env file found" else ".env file not found. Run: cp .env.example .env"

/-- Observable output of `main`: the rendered rows, the `.env` notice, and
the exit code. -/
def mainOutput (e : Env) : List (String × CheckResult × Bool) × String × Nat :=
  (runRows (serviceChecks e), envNotice e.envFileExists, mainRun e)

/-- Concrete checks list exercising a harness-level fault in the middle of
the run. -/
def demoChecks : List (String × Except String CheckResult × Bool) :=
  [ ("Python Version", Except.ok ⟨true, "3.12.0"⟩, true),
    ("Redis", Except.error "boom", true),
    ("Kafka", Except.ok ⟨false, "unreachable"⟩, false) ]

/-- A world where every client library import fails. -/
def allImportsMissing : Env :=
  { python := Except.ok (3, 12, 0),
    redis := Except.ok RedisEnv.importError,
    neo4j := Except.ok Neo4jEnv.importError,
    mongodb := Except.ok MongoEnv.importError,
    influxdb := Except.ok InfluxEnv.importError,
    kafka := Except.ok KafkaEnv.importError,
    ollama := Except.ok OllamaEnv.importError,
    envFileExists := false }

/-! Helper lemmas shared by the claim theorems. -/

lemma isSubAt_self_append (p t : List Char) : isSubAt p (p ++ t) = true := by
  induction p with
  | nil => rfl
  | cons c cs ih => simp [isSubAt, ih]

lemma strData_append (s t : String) : (s ++ t).data = s.data ++ t.data := by
  cases s; cases t; rfl

lemma strEndsWith_marker (pre : String) :
    strEndsWith (pre ++ " (3.11+ required)") "(3.11+ required)" = true := by
  unfold strEndsWith
  rw [strData_append, List.reverse_append]
  have h : (" (3.11+ required)" : String).data.reverse
      = ("(3.11+ required)" : String).data.reverse ++ [' '] := by decide
  rw [h, List.append_assoc]
  exact isSubAt_self_append _ _

lemma bool_imp_equiv (a b : Bool) : ((!(a && !b)) = true) ↔ (a = true → b = true) := by
  cases a <;> cases b <;> simp

lemma foldl_requiredFlag (rows : List (String × CheckResult × Bool)) (b : Bool) :
    rows.foldl (fun acc r => if r.2.2 && !r.2.1.ok then false else acc) b
      = (b && rows.all fun r => !(r.2.2 && !r.2.1.ok)) := by
  induction rows generalizing b with
  | nil => simp
  | cons r rs ih =>
    rw [List.foldl_cons, List.all_cons, ih]
    cases h : (r.2.2 && !r.2.1.ok) <;> simp [h]

lemma allRequiredOk_iff (checks : List (String × Except String CheckResult × Bool)) :
    allRequiredOk checks = true ↔
      ∀ r ∈ runRows checks, r.2.2 = true → r.2.1.ok = true := by
  unfold allRequiredOk
  rw [foldl_requiredFlag]
  simp [List.all_eq_true, bool_imp_equiv]

lemma allRequiredOk_false_iff (checks : List (String × Except String CheckResult × Bool)) :
    allRequiredOk checks = false ↔
      ∃ r ∈ runRows checks, r.2.2 = true ∧ r.2.1.ok = false := by
  rw [Bool.eq_false_iff, Ne, allRequiredOk_iff]
  push_neg
  simp only [Bool.not_eq_true]

/-- C1: for every run of the verifier, if every required ServiceCheck's
harnessed result has `ok = true` the exit code is 0, and if any required
check's result has `ok = false` the exit code is 1. -/
theorem exit_code_iff_required_ok (e : Env) :
    (mainRun e = 0 ↔ ∀ r ∈ runRows (serviceChecks e), r.2.2 = true → r.2.1.ok = true) ∧
    (mainRun e = 1 ↔ ∃ r ∈ runRows (serviceChecks e), r.2.2 = true ∧ r.2.1.ok = false) := by
  constructor
  · rw [← allRequiredOk_iff]
    unfold mainRun exitCode
    cases h : allRequiredOk (serviceChecks e) <;> simp [h]
  · rw [← allRequiredOk_false_iff]
    unfold mainRun exitCode
    cases h : allRequiredOk (serviceChecks e) <;> simp [h]

/-- C2: the optional Kafka and Ollama checks never influence the exit code:
two runs agreeing on the required checks but with arbitrary message-broker
and inference-server outcomes produce the same exit code. -/
theorem optional_checks_no_exit_influence (e : Env)
    (k k' : Except String KafkaEnv) (o o' : Except String OllamaEnv) :
    mainRun { e with kafka := k, ollama := o }
      = mainRun { e with kafka := k', ollama := o' } := by
  obtain ⟨p, r, n, m, i, kk, oo, f⟩ := e
  rfl

/-- C3: a harness-level fault in any probe is converted to `ok = false` with
the non-empty detail `"Error: " ++ msg`, the rows table still has one row
per declared service, and every other probe's row is still produced from its
own outcome. -/
theorem probe_fault_isolated (checks : List (String × Except String CheckResult × Bool))
    (i : Nat) (nm msg : String) (req : Bool)
    (h : checks.get? i = some (nm, Except.error msg, req)) :
    (runRows checks).get? i = some (nm, ⟨false, "Error: " ++ msg⟩, req) ∧
    ("Error: " ++ msg).length ≠ 0 ∧
    (runRows checks).length = checks.length ∧
    ∀ j c, checks.get? j = some c →
      (runRows checks).get? j = some (c.1, harness c.2.1, c.2.2) := by
  refine ⟨?_, ?_, ?_, ?_⟩
  · rw [runRows, List.get?_map, h]; rfl
  · rw [String.length_append]
    have h7 : ("Error: " : String).length = 7 := rfl
    omega
  · simp [runRows]
  · intro j c hc
    rw [runRows, List.get?_map, hc]
    rfl

/-- Closed witness for C3 at a concrete checks list whose second probe
faults at the harness level. -/
theorem probe_fault_isolated_witness :
    (runRows demoChecks).get? 1 = some ("Redis", ⟨false, "Error: " ++ "boom"⟩, true) ∧
    ("Error: " ++ "boom").length ≠ 0 ∧
    (runRows demoChecks).length = demoChecks.length ∧
    (∀ j c, demoChecks.get? j = some c →
      (runRows demoChecks).get? j = some (c.1, harness c.2.1, c.2.2)) :=
  probe_fault_isolated demoChecks 1 "Redis" "boom" true rfl

/-- C4: each probe whose client library import fails returns `ok = false`
with a detail naming the missing package, and a run in which every import
fails still completes with exit code 1 rather than crashing. -/
theorem missing_library_reported :
    check_redis RedisEnv.importError = ⟨false, "redis package not installed"⟩ ∧
    check_neo4j Neo4jEnv.importError = ⟨false, "neo4j package not installed"⟩ ∧
    check_mongodb MongoEnv.importError = ⟨false, "pymongo package not installed"⟩ ∧
    check_influxdb InfluxEnv.importError = ⟨false, "influxdb-client package not installed"⟩ ∧
    check_kafka KafkaEnv.importError = ⟨false, "aiokafka package not installed"⟩ ∧
    check_ollama OllamaEnv.importError = ⟨false, "httpx package not installed"⟩ ∧
    mainRun allImportsMissing = 1 :=
  ⟨rfl, rfl, rfl, rfl, rfl, rfl, rfl⟩

/-- C5: when the Neo4j connection attempt raises an error whose lowered text
contains "authentication", the probe returns exactly the credential-hint
detail with `ok = false`. -/
theorem neo4j_auth_failure_detail (msg : String)
    (h : strContains (pyLower msg) "authentication" = true) :
    check_neo4j (Neo4jEnv.connError msg)
      = ⟨false, "Authentication failed (check credentials)"⟩ := by
  simp [check_neo4j, check_neo4j_run, h]

/-- Closed witness for C5 at a concrete rejection message. -/
theorem neo4j_auth_failure_detail_witness :
    check_neo4j (Neo4jEnv.connError "Authentication failure: unauthorized")
      = ⟨false, "Authentication failed (check credentials)"⟩ :=
  neo4j_auth_failure_detail _ (by decide)

/-- C6: when the InfluxDB attempt raises an error whose text contains "401"
(the HTTP unauthorized status), the probe returns the token-hint detail with
`ok = false`, not a generic message. -/
theorem influxdb_auth_failure_detail (msg : String)
    (h : strContains msg "401" = true) :
    check_influxdb (InfluxEnv.raised msg)
      = ⟨false, "Authentication failed (check token)"⟩ := by
  simp [check_influxdb, check_influxdb_run, h]

/-- Closed witness for C6 at a concrete 401 error message. -/
theorem influxdb_auth_failure_detail_witness :
    check_influxdb (InfluxEnv.raised "(401) Unauthorized")
      = ⟨false, "Authentication failed (check token)"⟩ :=
  influxdb_auth_failure_detail _ (by decide)

/-- C7 counterexample: the Redis and Neo4j probes pass no timeout at all to
their clients, refuting the claim that every probe issues its request with
its own ≈2-second timeout. -/
theorem timeout_missing_counterexample :
    probeTimeoutMs Service.redis = none ∧ probeTimeoutMs Service.neo4j = none :=
  ⟨rfl, rfl⟩

/-- C7 amended: the MongoDB, InfluxDB, Kafka and Ollama probes each pass an
explicit 2-second (2000 ms) timeout; the Redis and Neo4j probes pass none
and rely on their clients' defaults; a Kafka timeout is reported as the
normal result `ok = false` with detail "Connection timeout". -/
theorem probe_timeouts_amended :
    probeTimeoutMs Service.mongodb = some 2000 ∧
    probeTimeoutMs Service.influxdb = some 2000 ∧
    probeTimeoutMs Service.kafka = some 2000 ∧
    probeTimeoutMs Service.ollama = some 2000 ∧
    probeTimeoutMs Service.redis = none ∧
    probeTimeoutMs Service.neo4j = none ∧
    check_kafka KafkaEnv.timeout = ⟨false, "Connection timeout"⟩ :=
  ⟨rfl, rfl, rfl, rfl, rfl, rfl, rfl⟩

/-- C8 counterexample: when the Neo4j connectivity check raises, the driver
was constructed but is not closed before the probe returns, refuting the
claim that every probe releases its client on every failure path. -/
theorem client_close_counterexample :
    (check_neo4j_run (Neo4jEnv.connError "Connection refused")).clientOpened = true ∧
    (check_neo4j_run (Neo4jEnv.connError "Connection refused")).clientClosed = false := by
  constructor <;> decide

/-- C8 amended: the Neo4j and MongoDB probes close their client only on the
success path and leave it unclosed on exception paths; the Redis and
InfluxDB probes never explicitly close their client on any path; the Kafka
probe stops its producer only when the start succeeded. -/
theorem client_release_amended :
    (∀ msg, (check_neo4j_run (Neo4jEnv.connError msg)).clientOpened = true ∧
            (check_neo4j_run (Neo4jEnv.connError msg)).clientClosed = false) ∧
    (check_neo4j_run Neo4jEnv.ok).clientClosed = true ∧
    (∀ msg, (check_mongodb_run (MongoEnv.connError msg)).clientOpened = true ∧
            (check_mongodb_run (MongoEnv.connError msg)).clientClosed = false) ∧
    (∀ v, (check_mongodb_run (MongoEnv.ok v)).clientClosed = true) ∧
    (∀ e, (check_influxdb_run e).clientClosed = false) ∧
    (∀ e, (check_redis_run e).clientClosed = false) ∧
    (check_kafka_run KafkaEnv.connected).clientClosed = true ∧
    (check_kafka_run KafkaEnv.timeout).clientOpened = true ∧
    (check_kafka_run KafkaEnv.timeout).clientClosed = false := by
  refine ⟨?_, rfl, ?_, ?_, ?_, ?_, rfl, rfl, rfl⟩
  · intro msg
    by_cases h : strContains (pyLower msg) "authentication" = true <;>
      simp [check_neo4j_run, h]
  · intro msg
    exact ⟨rfl, rfl⟩
  · intro v
    rfl
  · intro e
    cases e with
    | importError => rfl
    | pingResult b => cases b <;> rfl
    | raised msg =>
      by_cases h : strContains msg "401" = true <;> simp [check_influxdb_run, h]
  · intro e
    cases e <;> rfl

/-- C9: the `.env` file presence changes only the printed notice, never the
exit code: two runs agreeing on all probe outcomes but differing in
`envFileExists` produce the same exit code, and the two notices are the
distinct found / not-found messages. -/
theorem env_file_notice_independent (e : Env) (b b' : Bool) :
    (mainOutput { e with envFileExists := b }).2.2
      = (mainOutput { e with envFileExists := b' }).2.2 ∧
    (mainOutput { e with envFileExists := true }).2.1 = ".env file found" ∧
    (mainOutput { e with envFileExists := false }).2.1
      = ".env file not found. Run: cp .env.example .env" := by
  obtain ⟨p, r, n, m, i, kk, oo, f⟩ := e
  exact ⟨rfl, rfl, rfl⟩

/-- C10: the version check accepts exactly the interpreters with major = 3
and minor ≥ 11; any major version greater than 3 is rejected with a detail
ending in "(3.11+ required)". -/
theorem python_version_check_spec (ma mi mc : Nat) :
    ((check_python_version ma mi mc).ok = true ↔ (ma = 3 ∧ 11 ≤ mi)) ∧
    (3 < ma → (check_python_version ma mi mc).ok = false ∧
      strEndsWith (check_python_version ma mi mc).detail "(3.11+ required)" = true) := by
  constructor
  · unfold check_python_version
    split
    · next h => simp [h]
    · next h => simp [h]
  · intro hma
    have hne : ¬(ma = 3 ∧ 11 ≤ mi) := fun hc => absurd hc.1 (by omega)
    unfold check_python_version
    rw [if_neg hne]
    exact ⟨rfl, strEndsWith_marker _⟩

/-- Closed witness for C10 at the hypothetical interpreter version 4.0.0. -/
theorem python_version_check_spec_witness :
    ((check_python_version 4 0 0).ok = true ↔ (4 = 3 ∧ 11 ≤ 0)) ∧
    ((check_python_version 4 0 0).ok = false ∧
      strEndsWith (check_python_version 4 0 0).detail "(3.11+ required)" = true) :=
  ⟨(python_version_check_spec 4 0 0).1,
   (python_version_check_spec 4 0 0).2 (by decide)⟩
